import Mathlib

/-
Verification of the Kusuma Settlement payout engine.

Shallow embedding of the program core (src/app/models.py, src/app/currency.py,
src/app/store.py, src/app/engine.py) in Lean 4.

Modelling conventions:
* Python `Decimal` values are exact decimal fractions, embedded as `ℚ`;
  `Decimal.quantize(Decimal("0.01"))` (default rounding ROUND_HALF_EVEN)
  is `quantize2` below.
* Python `datetime` is a calendar-day number (`Int`) plus a time-of-day
  (`Nat`); `.date()` drops the time of day and datetimes compare
  lexicographically.  `date` arguments are plain day numbers.
* Python dicts preserve insertion order, so the two `DataStore` dicts are
  embedded as insertion-ordered lists keyed by `id`.
* The float arithmetic inside `_detect_fraud` (the only float use in the
  program) is embedded as exact rational arithmetic; see `detectFraud`.
-/

namespace KusumaSettlement

/-- `Currency` enum from src/app/models.py: closed set IDR / THB / VND. -/
inductive Currency where
  | IDR
  | THB
  | VND
deriving DecidableEq

/-- `.value` of a `Currency` member (the enum is a `str` enum). -/
def Currency.value : Currency → String
  | .IDR => "IDR"
  | .THB => "THB"
  | .VND => "VND"

/-- `TransactionStatus` enum from src/app/models.py. -/
inductive TransactionStatus where
  | authorized
  | captured
  | refunded
  | chargeback
deriving DecidableEq

/-- `.value` of a `TransactionStatus` member (a `str` enum). -/
def TransactionStatus.value : TransactionStatus → String
  | .authorized => "authorized"
  | .captured => "captured"
  | .refunded => "refunded"
  | .chargeback => "chargeback"

/-- Python `datetime`, embedded as a calendar-day number plus a time of day.
`datetime.date()` is the `day` projection; datetimes compare
lexicographically by (day, time of day). -/
structure DateTime where
  day : Int
  tod : Nat
deriving DecidableEq

/-- Lexicographic `≤` on datetimes, as a boolean (Python datetime order). -/
def DateTime.le (a b : DateTime) : Bool :=
  decide (a.day < b.day ∨ (a.day = b.day ∧ a.tod ≤ b.tod))

/-- `Seller` model from src/app/models.py. -/
structure Seller where
  id : String
  name : String
  commission_rate : ℚ
  settlement_currency : Currency
  country : String
  email : String
deriving DecidableEq

/-- `Transaction` model from src/app/models.py. -/
structure Transaction where
  id : String
  seller_id : String
  buyer_id : String
  amount : ℚ
  currency : Currency
  status : TransactionStatus
  created_at : DateTime
  captured_at : Option DateTime
  parent_transaction_id : Option String
  description : Option String
deriving DecidableEq

/-- `RefundDetail` response model from src/app/models.py (the `status` field
holds `r.status.value`, a plain string). -/
structure RefundDetail where
  refund_id : String
  amount : ℚ
  currency : Currency
  status : String
  date : DateTime
deriving DecidableEq

/-- `TransactionLineItem` response model from src/app/models.py. -/
structure TransactionLineItem where
  transaction_id : String
  captured_at : DateTime
  original_amount : ℚ
  original_currency : Currency
  converted_gross : ℚ
  exchange_rate : ℚ
  refunds : List RefundDetail
  total_refunded_converted : ℚ
  gross_after_refunds : ℚ
  commission_rate : ℚ
  commission_amount : ℚ
  net_payout : ℚ
deriving DecidableEq

/-- `PayoutSummary` response model exactly as declared in src/app/models.py
lines 73-86.  Note: that declaration has NO `fraud_flags` field, and
src/app/models.py defines no `FraudFlag` class at all, even though
src/app/engine.py imports `FraudFlag` from `app.models` and passes a
`fraud_flags=` keyword when constructing `PayoutSummary`.  The embedding
keeps the declared shape; `period_start` / `period_end` hold the day
numbers that Python stores as `str(start_date)` / `str(end_date)`. -/
structure PayoutSummary where
  seller_id : String
  seller_name : String
  commission_rate : ℚ
  period_start : Int
  period_end : Int
  settlement_currency : Currency
  gross_volume : ℚ
  commission_deducted : ℚ
  refunds_deducted : ℚ
  net_payout : ℚ
  transaction_count : Nat
  refund_count : Nat
  breakdown : List TransactionLineItem
deriving DecidableEq

/-- Fraud-flag severity; the spec restricts it to medium / high. -/
inductive Severity where
  | medium
  | high
deriving DecidableEq

/-- Modelled from the spec: the `FraudFlag` record class is missing from
src/app/models.py (src/app/engine.py imports and constructs it anyway).
Fields follow the shape the spec gives (transaction_id, reason, severity) and the
constructor calls in `_detect_fraud`.  The human-readable `reason` text in
the source interpolates float-formatted ratios; the embedding keeps `reason`
as a fixed descriptive string per flag kind, since no claim inspects the
text. -/
structure FraudFlag where
  transaction_id : String
  reason : String
  severity : Severity
deriving DecidableEq

/-- Round a rational to the nearest integer, ties to even — the
`ROUND_HALF_EVEN` default used by Python `Decimal.quantize`. -/
def roundHalfEven (x : ℚ) : ℤ :=
  let n := ⌊x⌋
  let f := x - (n : ℚ)
  if f < 1/2 then n
  else if 1/2 < f then n + 1
  else if n % 2 = 0 then n else n + 1

/-- `Decimal.quantize(Decimal("0.01"))`: round to two decimal places,
half to even. -/
def quantize2 (x : ℚ) : ℚ :=
  (roundHalfEven (x * 100) : ℚ) / 100

/-- The `_RATES` static table from src/app/currency.py, keyed (like the
source) by the ordered pair of `.value` strings. -/
def RATES : List ((String × String) × ℚ) :=
  [(("IDR", "IDR"), 1),
   (("IDR", "THB"), 0.002268),
   (("IDR", "VND"), 1.5500),
   (("THB", "IDR"), 440.99),
   (("THB", "THB"), 1),
   (("THB", "VND"), 683.50),
   (("VND", "IDR"), 0.6452),
   (("VND", "THB"), 0.001463),
   (("VND", "VND"), 1)]

/-- `get_rate` from src/app/currency.py: dict lookup on the pair of enum
values; `none` models the raised `ValueError` (UnknownRatePair). -/
def get_rate (from_currency to_currency : Currency) : Option ℚ :=
  RATES.lookup (from_currency.value, to_currency.value)

/-- `convert` from src/app/currency.py: returns `(converted_amount, rate)`
with the amount rounded to 2 dp. -/
def convert (amount : ℚ) (from_currency to_currency : Currency) :
    Option (ℚ × ℚ) :=
  (get_rate from_currency to_currency).map
    (fun rate => (quantize2 (amount * rate), rate))

/-- Total companion of `get_rate`: the looked-up rate (the table is total on
the enum, proved in `get_rate_eq_rateOf`). -/
def rateOf (from_currency to_currency : Currency) : ℚ :=
  (get_rate from_currency to_currency).getD 0

/-- Total companion of `convert`. -/
def convertT (amount : ℚ) (from_currency to_currency : Currency) : ℚ × ℚ :=
  (quantize2 (amount * rateOf from_currency to_currency),
   rateOf from_currency to_currency)

/-- `DataStore` from src/app/store.py; the two dicts are embedded as
insertion-ordered lists keyed by `id`. -/
structure DataStore where
  sellers : List Seller
  transactions : List Transaction

/-- `DataStore.get_seller`. -/
def DataStore.get_seller (s : DataStore) (seller_id : String) : Option Seller :=
  s.sellers.find? (fun x => x.id == seller_id)

/-- `DataStore.get_transactions_for_seller`. -/
def DataStore.get_transactions_for_seller (s : DataStore) (seller_id : String) :
    List Transaction :=
  s.transactions.filter (fun t => t.seller_id == seller_id)

/-- `t.status in (TransactionStatus.REFUNDED, TransactionStatus.CHARGEBACK)`. -/
def isRefundOrChargeback (t : Transaction) : Bool :=
  t.status == .refunded || t.status == .chargeback

/-- The refund-link map of src/app/engine.py (step 2 of `calculate_payout`),
read at one captured id: every refund/chargeback in the full history of the seller
whose `parent_transaction_id` equals `tid`, in history order, with no
condition on the timestamps of the refund itself. -/
def linkedRefunds (all_txns : List Transaction) (tid : String) :
    List Transaction :=
  all_txns.filter
    (fun t => isRefundOrChargeback t && t.parent_transaction_id == some tid)

/-- The window filter of step 1 of `calculate_payout`: status CAPTURED, a
non-null capture timestamp, and capture date (time of day dropped) within
`[start_date, end_date]` inclusive. -/
def inWindow (start_date end_date : Int) (t : Transaction) : Bool :=
  t.status == .captured &&
    match t.captured_at with
    | none => false
    | some dt => decide (start_date ≤ dt.day ∧ dt.day ≤ end_date)

/-- The capture timestamp used as the sort key; the default is never reached
on the sorted list because the window filter demands `captured_at is not
None`. -/
def capturedAtD (t : Transaction) : DateTime :=
  t.captured_at.getD ⟨0, 0⟩

/-- `sorted(captured, key=lambda t: t.captured_at)`: Python `sorted` is a
stable merge sort, embedded as `List.mergeSort`. -/
def sortByCapturedAt (l : List Transaction) : List Transaction :=
  l.mergeSort (fun a b => DateTime.le (capturedAtD a) (capturedAtD b))

/-- The `RefundDetail` built for one linked refund in step 3 of
`calculate_payout`. -/
def mkRefundDetail (r : Transaction) : RefundDetail :=
  { refund_id := r.id
    amount := r.amount
    currency := r.currency
    status := r.status.value
    date := r.created_at }

/-- One iteration of the line-item loop (step 3 of `calculate_payout` in
src/app/engine.py), with the possible UnknownRatePair failure of `convert`
propagated as `none`. -/
def mkLineItem (seller : Seller) (all_txns : List Transaction)
    (txn : Transaction) : Option TransactionLineItem := do
  let linked := linkedRefunds all_txns txn.id
  let total_refunded_orig : ℚ := (linked.map Transaction.amount).sum
  let net_after_refunds_orig : ℚ := max 0 (txn.amount - total_refunded_orig)
  let commission_orig : ℚ :=
    quantize2 (net_after_refunds_orig * seller.commission_rate)
  let net_orig : ℚ := net_after_refunds_orig - commission_orig
  let cg ← convert txn.amount txn.currency seller.settlement_currency
  let cr ← convert total_refunded_orig txn.currency seller.settlement_currency
  let cc ← convert commission_orig txn.currency seller.settlement_currency
  let cn ← convert net_orig txn.currency seller.settlement_currency
  pure
    { transaction_id := txn.id
      captured_at := capturedAtD txn
      original_amount := txn.amount
      original_currency := txn.currency
      converted_gross := cg.1
      exchange_rate := cg.2
      refunds := linked.map mkRefundDetail
      total_refunded_converted := cr.1
      gross_after_refunds := max 0 (cg.1 - cr.1)
      commission_rate := seller.commission_rate
      commission_amount := cc.1
      net_payout := cn.1 }

/-- Total companion of `mkLineItem` (the rate table is total on the enum). -/
def mkLineItemT (seller : Seller) (all_txns : List Transaction)
    (txn : Transaction) : TransactionLineItem :=
  let linked := linkedRefunds all_txns txn.id
  let total_refunded_orig : ℚ := (linked.map Transaction.amount).sum
  let net_after_refunds_orig : ℚ := max 0 (txn.amount - total_refunded_orig)
  let commission_orig : ℚ :=
    quantize2 (net_after_refunds_orig * seller.commission_rate)
  let net_orig : ℚ := net_after_refunds_orig - commission_orig
  let cg := convertT txn.amount txn.currency seller.settlement_currency
  let cr := convertT total_refunded_orig txn.currency seller.settlement_currency
  let cc := convertT commission_orig txn.currency seller.settlement_currency
  let cn := convertT net_orig txn.currency seller.settlement_currency
  { transaction_id := txn.id
    captured_at := capturedAtD txn
    original_amount := txn.amount
    original_currency := txn.currency
    converted_gross := cg.1
    exchange_rate := cg.2
    refunds := linked.map mkRefundDetail
    total_refunded_converted := cr.1
    gross_after_refunds := max 0 (cg.1 - cr.1)
    commission_rate := seller.commission_rate
    commission_amount := cc.1
    net_payout := cn.1 }

/-- The line-item loop over the sorted captured list; a conversion failure
inside one iteration aborts the whole computation, like the Python
exception. -/
def buildLineItems (seller : Seller) (all_txns : List Transaction) :
    List Transaction → Option (List TransactionLineItem)
  | [] => some []
  | t :: ts => do
    let li ← mkLineItem seller all_txns t
    let rest ← buildLineItems seller all_txns ts
    pure (li :: rest)

/-- `avg = sum(amounts) / len(amounts)` in `_detect_fraud`; the source does
this arithmetic on binary floats of the Decimal amounts, the embedding does
it exactly over `ℚ`. -/
def avgAmount (captured : List Transaction) : ℚ :=
  (captured.map Transaction.amount).sum / captured.length

/-- `refunded_count` in `_detect_fraud`: the number of values of `refund_map`
that are nonempty.  `refund_map` is keyed by the SET of captured ids, so this
counts the distinct captured ids (`dedup`) that have at least one linked
refund/chargeback. -/
def refundedCount (captured all_txns : List Transaction) : Nat :=
  ((captured.map Transaction.id).dedup.filter
    (fun tid => !(linkedRefunds all_txns tid).isEmpty)).length

/-- `_detect_fraud` from src/app/engine.py.  The source converts the Decimal
amounts to binary floats for the mean, the 3x / 5x threshold comparisons and
the refund-ratio comparison; the embedding performs the same arithmetic
exactly over `ℚ`. -/
def detectFraud (captured : List Transaction) (all_txns : List Transaction) :
    List FraudFlag :=
  if captured.length = 0 then []
  else
    let avg : ℚ := avgAmount captured
    let flags : List FraudFlag :=
      captured.foldl
        (fun acc txn =>
          if avg * 3 < txn.amount then
            acc ++ [{ transaction_id := txn.id
                      reason := "amount above 3x the period average"
                      severity :=
                        if avg * 5 < txn.amount then .high else .medium }]
          else acc)
        []
    if 0 < captured.length ∧
        (3 : ℚ) / 10 <
          (refundedCount captured all_txns : ℚ) / (captured.length : ℚ) then
      flags ++ [{ transaction_id := "SELLER"
                  reason := "high refund rate"
                  severity := .medium }]
    else flags

/-- The errors `calculate_payout` can raise: the seller lookup miss
(`ValueError: Seller not found`) and the conversion miss
(`ValueError: No exchange rate`, UnknownRatePair). -/
inductive PayoutError where
  | sellerNotFound
  | unknownRatePair
deriving DecidableEq

/-- `calculate_payout` from src/app/engine.py.  The source also computes
`_detect_fraud(captured, refund_map, seller)` and passes it as a
`fraud_flags=` keyword to `PayoutSummary`, but the `PayoutSummary` model of
src/app/models.py declares no such field (and no `FraudFlag` class exists
there), so the summary value itself carries no fraud flags; `detectFraud`
above embeds the detector separately. -/
def calculate_payout (seller_id : String) (start_date end_date : Int)
    (store : DataStore) : Except PayoutError PayoutSummary :=
  match store.get_seller seller_id with
  | none => .error .sellerNotFound
  | some seller =>
    let all_txns := store.get_transactions_for_seller seller_id
    let captured := all_txns.filter (inWindow start_date end_date)
    match buildLineItems seller all_txns (sortByCapturedAt captured) with
    | none => .error .unknownRatePair
    | some line_items =>
      .ok
        { seller_id := seller_id
          seller_name := seller.name
          commission_rate := seller.commission_rate
          period_start := start_date
          period_end := end_date
          settlement_currency := seller.settlement_currency
          gross_volume :=
            quantize2 ((line_items.map TransactionLineItem.converted_gross).sum)
          commission_deducted :=
            quantize2 ((line_items.map TransactionLineItem.commission_amount).sum)
          refunds_deducted :=
            quantize2
              ((line_items.map TransactionLineItem.total_refunded_converted).sum)
          net_payout :=
            quantize2 ((line_items.map TransactionLineItem.net_payout).sum)
          transaction_count := captured.length
          refund_count :=
            (line_items.map (fun i => i.refunds.length)).sum
          breakdown := line_items }

/-- The summary `calculate_payout` returns when the seller lookup succeeds
(total companion, used throughout the proofs). -/
def summaryOf (seller : Seller) (seller_id : String)
    (start_date end_date : Int) (store : DataStore) : PayoutSummary :=
  let all_txns := store.get_transactions_for_seller seller_id
  let captured := all_txns.filter (inWindow start_date end_date)
  let line_items := (sortByCapturedAt captured).map (mkLineItemT seller all_txns)
  { seller_id := seller_id
    seller_name := seller.name
    commission_rate := seller.commission_rate
    period_start := start_date
    period_end := end_date
    settlement_currency := seller.settlement_currency
    gross_volume :=
      quantize2 ((line_items.map TransactionLineItem.converted_gross).sum)
    commission_deducted :=
      quantize2 ((line_items.map TransactionLineItem.commission_amount).sum)
    refunds_deducted :=
      quantize2
        ((line_items.map TransactionLineItem.total_refunded_converted).sum)
    net_payout :=
      quantize2 ((line_items.map TransactionLineItem.net_payout).sum)
    transaction_count := captured.length
    refund_count := (line_items.map (fun i => i.refunds.length)).sum
    breakdown := line_items }

/-! ### Helper lemmas about the embedded definitions -/

theorem get_rate_eq_rateOf (f t : Currency) : get_rate f t = some (rateOf f t) := by
  cases f <;> cases t <;> rfl

theorem rateOf_pos (f t : Currency) : 0 < rateOf f t := by
  cases f <;> cases t
  · exact (by norm_num : (0:ℚ) < 1)
  · exact (by norm_num : (0:ℚ) < 0.002268)
  · exact (by norm_num : (0:ℚ) < 1.5500)
  · exact (by norm_num : (0:ℚ) < 440.99)
  · exact (by norm_num : (0:ℚ) < 1)
  · exact (by norm_num : (0:ℚ) < 683.50)
  · exact (by norm_num : (0:ℚ) < 0.6452)
  · exact (by norm_num : (0:ℚ) < 0.001463)
  · exact (by norm_num : (0:ℚ) < 1)

theorem convert_eq (a : ℚ) (f t : Currency) :
    convert a f t = some (convertT a f t) := by
  simp [convert, convertT, get_rate_eq_rateOf]

theorem roundHalfEven_nonneg {x : ℚ} (hx : 0 ≤ x) : 0 ≤ roundHalfEven x := by
  have hfl : (0 : ℤ) ≤ ⌊x⌋ := Int.floor_nonneg.mpr hx
  unfold roundHalfEven
  dsimp only
  split
  · exact hfl
  · split
    · omega
    · split <;> omega

theorem quantize2_nonneg {x : ℚ} (hx : 0 ≤ x) : 0 ≤ quantize2 x := by
  have h : (0 : ℤ) ≤ roundHalfEven (x * 100) :=
    roundHalfEven_nonneg (by positivity)
  unfold quantize2
  positivity

theorem quantize2_zero : quantize2 0 = 0 := by
  norm_num [quantize2, roundHalfEven]

theorem DateTime.le_trans (a b c : DateTime) :
    DateTime.le a b = true → DateTime.le b c = true → DateTime.le a c = true := by
  simp only [DateTime.le, decide_eq_true_eq]
  omega

theorem DateTime.le_total (a b : DateTime) :
    (DateTime.le a b || DateTime.le b a) = true := by
  simp only [DateTime.le, Bool.or_eq_true, decide_eq_true_eq]
  omega

theorem sortByCapturedAt_perm (l : List Transaction) :
    (sortByCapturedAt l).Perm l :=
  List.mergeSort_perm l _

theorem sortByCapturedAt_sorted (l : List Transaction) :
    (sortByCapturedAt l).Pairwise
      (fun a b => DateTime.le (capturedAtD a) (capturedAtD b) = true) :=
  List.sorted_mergeSort
    (fun a b c => DateTime.le_trans (capturedAtD a) (capturedAtD b) (capturedAtD c))
    (fun a b => DateTime.le_total (capturedAtD a) (capturedAtD b)) l

theorem mkLineItem_eq (seller : Seller) (all_txns : List Transaction)
    (txn : Transaction) :
    mkLineItem seller all_txns txn = some (mkLineItemT seller all_txns txn) := by
  simp [mkLineItem, mkLineItemT, convert_eq]

theorem buildLineItems_eq (seller : Seller) (all_txns : List Transaction) :
    ∀ l : List Transaction,
      buildLineItems seller all_txns l = some (l.map (mkLineItemT seller all_txns))
  | [] => rfl
  | t :: ts => by
    simp [buildLineItems, mkLineItem_eq, buildLineItems_eq seller all_txns ts]

theorem calculate_payout_eq_ok {store : DataStore} {sid : String}
    {seller : Seller} (sd ed : Int) (hs : store.get_seller sid = some seller) :
    calculate_payout sid sd ed store = .ok (summaryOf seller sid sd ed store) := by
  unfold calculate_payout summaryOf
  rw [hs]
  simp only [buildLineItems_eq, sortByCapturedAt]

theorem calculate_payout_ok_elim {store : DataStore} {sid : String}
    {sd ed : Int} {ps : PayoutSummary}
    (hok : calculate_payout sid sd ed store = .ok ps) :
    ∃ seller, store.get_seller sid = some seller ∧
      ps = summaryOf seller sid sd ed store := by
  cases hsell : store.get_seller sid with
  | none => rw [calculate_payout, hsell] at hok; exact absurd hok (by simp)
  | some seller =>
    refine ⟨seller, rfl, ?_⟩
    have h := @calculate_payout_eq_ok store sid seller sd ed hsell
    rw [hok] at h
    exact Except.ok.inj h

/-- Projections of the total line-item builder, by unfolding its lets. -/
theorem mkLineItemT_transaction_id (seller : Seller) (all_txns : List Transaction)
    (txn : Transaction) :
    (mkLineItemT seller all_txns txn).transaction_id = txn.id := rfl

theorem mkLineItemT_captured_at (seller : Seller) (all_txns : List Transaction)
    (txn : Transaction) :
    (mkLineItemT seller all_txns txn).captured_at = capturedAtD txn := rfl

theorem mkLineItemT_refunds (seller : Seller) (all_txns : List Transaction)
    (txn : Transaction) :
    (mkLineItemT seller all_txns txn).refunds =
      (linkedRefunds all_txns txn.id).map mkRefundDetail := rfl

theorem mkLineItemT_converted_gross (seller : Seller) (all_txns : List Transaction)
    (txn : Transaction) :
    (mkLineItemT seller all_txns txn).converted_gross =
      quantize2 (txn.amount * rateOf txn.currency seller.settlement_currency) := rfl

theorem mkLineItemT_total_refunded (seller : Seller) (all_txns : List Transaction)
    (txn : Transaction) :
    (mkLineItemT seller all_txns txn).total_refunded_converted =
      quantize2 (((linkedRefunds all_txns txn.id).map Transaction.amount).sum *
        rateOf txn.currency seller.settlement_currency) := rfl

theorem mkLineItemT_gross_after_refunds (seller : Seller)
    (all_txns : List Transaction) (txn : Transaction) :
    (mkLineItemT seller all_txns txn).gross_after_refunds =
      max 0 ((mkLineItemT seller all_txns txn).converted_gross -
        (mkLineItemT seller all_txns txn).total_refunded_converted) := rfl

/-- `max 0 (amount − total linked refunds)` in the original currency: the
clamped net-after-refunds quantity of step 3 of `calculate_payout`. -/
def netAfterRefunds (all_txns : List Transaction) (t : Transaction) : ℚ :=
  max 0 (t.amount - ((linkedRefunds all_txns t.id).map Transaction.amount).sum)

theorem mkLineItemT_commission_amount (seller : Seller)
    (all_txns : List Transaction) (txn : Transaction) :
    (mkLineItemT seller all_txns txn).commission_amount =
      quantize2 (quantize2 (netAfterRefunds all_txns txn * seller.commission_rate) *
        rateOf txn.currency seller.settlement_currency) := rfl

theorem mkLineItemT_net_payout (seller : Seller) (all_txns : List Transaction)
    (txn : Transaction) :
    (mkLineItemT seller all_txns txn).net_payout =
      quantize2 ((netAfterRefunds all_txns txn -
        quantize2 (netAfterRefunds all_txns txn * seller.commission_rate)) *
        rateOf txn.currency seller.settlement_currency) := rfl

/-- Shape of `summaryOf`: its breakdown and the counts over it. -/
theorem summaryOf_breakdown (seller : Seller) (sid : String) (sd ed : Int)
    (store : DataStore) :
    (summaryOf seller sid sd ed store).breakdown =
      (sortByCapturedAt
        ((store.get_transactions_for_seller sid).filter (inWindow sd ed))).map
        (mkLineItemT seller (store.get_transactions_for_seller sid)) := rfl

theorem summaryOf_transaction_count (seller : Seller) (sid : String) (sd ed : Int)
    (store : DataStore) :
    (summaryOf seller sid sd ed store).transaction_count =
      ((store.get_transactions_for_seller sid).filter (inWindow sd ed)).length := rfl

theorem summaryOf_refund_count (seller : Seller) (sid : String) (sd ed : Int)
    (store : DataStore) :
    (summaryOf seller sid sd ed store).refund_count =
      ((summaryOf seller sid sd ed store).breakdown.map
        (fun li => li.refunds.length)).sum := rfl

theorem summaryOf_net_payout (seller : Seller) (sid : String) (sd ed : Int)
    (store : DataStore) :
    (summaryOf seller sid sd ed store).net_payout =
      quantize2 (((summaryOf seller sid sd ed store).breakdown.map
        TransactionLineItem.net_payout).sum) := rfl

/-- A fold that conditionally appends one element per list entry is the
filtered map glued after the accumulator (shape of the flag loop in
`_detect_fraud`). -/
theorem foldl_append_ite {α β : Type} (p : α → Prop) [DecidablePred p]
    (g : α → β) :
    ∀ (l : List α) (acc : List β),
      l.foldl (fun acc x => if p x then acc ++ [g x] else acc) acc =
        acc ++ (l.filter (fun x => decide (p x))).map g
  | [], acc => by simp
  | x :: xs, acc => by
    by_cases hx : p x
    · simp [List.foldl_cons, hx, foldl_append_ite p g xs (acc ++ [g x])]
    · simp [List.foldl_cons, hx, foldl_append_ite p g xs acc]

/-! ### Concrete fixtures (mirroring the shapes used in src/tests/test_engine.py) -/

/-- The IDR test seller of src/tests/test_engine.py (10 percent commission). -/
def sellerC : Seller :=
  { id := "S-001", name := "Test Seller IDR", commission_rate := 0.10,
    settlement_currency := .IDR, country := "Indonesia",
    email := "test@example.com" }

/-- A 1,000,000 IDR transaction captured on day 1. -/
def txnC : Transaction :=
  { id := "T-001", seller_id := "S-001", buyer_id := "B-001",
    amount := 1000000, currency := .IDR, status := .captured,
    created_at := ⟨1, 10⟩, captured_at := some ⟨1, 12⟩,
    parent_transaction_id := none, description := none }

/-- A full refund of `txnC`, created on day 10 (outside the week-1 window). -/
def refC : Transaction :=
  { id := "R-001", seller_id := "S-001", buyer_id := "B-001",
    amount := 1000000, currency := .IDR, status := .refunded,
    created_at := ⟨10, 10⟩, captured_at := none,
    parent_transaction_id := some "T-001", description := none }

/-- Store holding `sellerC`, the captured `txnC` and its cross-window full
refund `refC`. -/
def storeC : DataStore := ⟨[sellerC], [txnC, refC]⟩

/-! ### The claims -/

/-- C7: for every amount and every pair of currencies, `convert` returns the
amount multiplied by the bilateral table rate and rounded to 2 decimal
places half-to-even, paired with the rate used; the table carries an
identity entry for every currency. -/
theorem convert_formula_and_identity :
    (∀ (a : ℚ) (f t : Currency),
      convert a f t = some (quantize2 (a * rateOf f t), rateOf f t)) ∧
    (∀ c : Currency, get_rate c c = some 1) := by
  constructor
  · intro a f t
    exact convert_eq a f t
  · intro c
    cases c <;> rfl

/-- C8: `calculate_payout` fails with SellerNotFound exactly when the store
has no seller with the requested id, and returns a `PayoutSummary` whenever
the seller exists (the rate table is total on the `Currency` enum, so no
conversion failure can intervene).  The source reaches the ledger only
through the read methods `get_seller` and `get_transactions_for_seller`, and
the embedding is accordingly a pure function of the store: no write to the
ledger occurs. -/
theorem seller_lookup_behavior (sid : String) (sd ed : Int) (store : DataStore) :
    (calculate_payout sid sd ed store = .error .sellerNotFound ↔
      store.get_seller sid = none) ∧
    (∀ seller, store.get_seller sid = some seller →
      calculate_payout sid sd ed store = .ok (summaryOf seller sid sd ed store)) := by
  constructor
  · constructor
    · intro h
      cases hsell : store.get_seller sid with
      | none => rfl
      | some seller =>
        rw [calculate_payout_eq_ok sd ed hsell] at h
        exact absurd h (by simp)
    · intro h
      unfold calculate_payout
      rw [h]
  · intro seller hs
    exact calculate_payout_eq_ok sd ed hs

/-- Witness for C8 at concrete stores: the known seller id succeeds, the
unknown one fails with SellerNotFound. -/
theorem seller_lookup_behavior_witness :
    calculate_payout "S-001" 1 7 storeC =
      Except.ok (summaryOf sellerC "S-001" 1 7 storeC) ∧
    calculate_payout "S-404" 1 7 storeC =
      Except.error PayoutError.sellerNotFound := by
  constructor
  · exact (seller_lookup_behavior "S-001" 1 7 storeC).2 sellerC rfl
  · exact (seller_lookup_behavior "S-404" 1 7 storeC).1.mpr rfl

/-- C9: the static rate table covers all nine ordered pairs of the three
`Currency` members, so `get_rate` and `convert` always succeed on enum
arguments and the UnknownRatePair error branch is unreachable from
`calculate_payout`. -/
theorem rate_table_total :
    (∀ f t : Currency, (get_rate f t).isSome = true) ∧
    (∀ (a : ℚ) (f t : Currency), (convert a f t).isSome = true) ∧
    (∀ (sid : String) (sd ed : Int) (store : DataStore),
      calculate_payout sid sd ed store ≠ .error .unknownRatePair) := by
  refine ⟨?_, ?_, ?_⟩
  · intro f t
    rw [get_rate_eq_rateOf]
    rfl
  · intro a f t
    rw [convert_eq]
    rfl
  · intro sid sd ed store h
    cases hsell : store.get_seller sid with
    | none =>
      unfold calculate_payout at h
      rw [hsell] at h
      exact absurd h (by simp)
    | some seller =>
      rw [calculate_payout_eq_ok sd ed hsell] at h
      exact absurd h (by simp)

/-- Witness for C9: a concrete call never yields the UnknownRatePair error. -/
theorem rate_table_total_witness :
    calculate_payout "S-000" 1 2 (DataStore.mk [] []) ≠
      Except.error PayoutError.unknownRatePair :=
  rate_table_total.2.2 "S-000" 1 2 ⟨[], []⟩

/-- C1: refund leak-back.  Every transaction captured inside the requested
window owns a line item of the returned summary whose refund list is exactly
the refunds/chargebacks of the full seller history whose
`parent_transaction_id` points at it — `linkedRefunds` imposes no condition
on the refund timestamps, so a refund dated after the window still lands
here — and a full refund (single linked record of equal amount) drives the
line net payout and commission to exactly 0 while still being counted in
`refund_count`. -/
theorem refund_leak_back (store : DataStore) (sid : String) (sd ed : Int)
    (ps : PayoutSummary) (txn : Transaction)
    (hok : calculate_payout sid sd ed store = .ok ps)
    (hmem : txn ∈ (store.get_transactions_for_seller sid).filter (inWindow sd ed)) :
    ∃ li ∈ ps.breakdown,
      li.transaction_id = txn.id ∧
      li.refunds =
        (linkedRefunds (store.get_transactions_for_seller sid) txn.id).map
          mkRefundDetail ∧
      ∀ r : Transaction,
        linkedRefunds (store.get_transactions_for_seller sid) txn.id = [r] →
        r.amount = txn.amount →
        li.net_payout = 0 ∧ li.commission_amount = 0 ∧
        li.refunds.length = 1 ∧ 1 ≤ ps.refund_count := by
  obtain ⟨seller, hsell, hps⟩ := calculate_payout_ok_elim hok
  subst hps
  have hmem2 :
      txn ∈ sortByCapturedAt
        ((store.get_transactions_for_seller sid).filter (inWindow sd ed)) :=
    (sortByCapturedAt_perm _).mem_iff.mpr hmem
  have hbd :
      mkLineItemT seller (store.get_transactions_for_seller sid) txn ∈
        (summaryOf seller sid sd ed store).breakdown := by
    rw [summaryOf_breakdown]
    exact List.mem_map_of_mem _ hmem2
  refine ⟨mkLineItemT seller (store.get_transactions_for_seller sid) txn,
    hbd, rfl, rfl, ?_⟩
  intro r hr hamt
  have hnet : netAfterRefunds (store.get_transactions_for_seller sid) txn = 0 := by
    rw [netAfterRefunds, hr]
    simp [hamt]
  have hlen :
      (mkLineItemT seller (store.get_transactions_for_seller sid) txn).refunds.length
        = 1 := by
    rw [mkLineItemT_refunds, hr]
    rfl
  refine ⟨?_, ?_, hlen, ?_⟩
  · rw [mkLineItemT_net_payout, hnet]
    simp [quantize2_zero]
  · rw [mkLineItemT_commission_amount, hnet]
    simp [quantize2_zero]
  · rw [summaryOf_refund_count]
    have hx :
        (mkLineItemT seller (store.get_transactions_for_seller sid) txn).refunds.length
          ∈ (summaryOf seller sid sd ed store).breakdown.map
              (fun li => li.refunds.length) :=
      List.mem_map_of_mem _ hbd
    have hle := List.single_le_sum (fun x _ => Nat.zero_le x) _ hx
    rw [hlen] at hle
    exact hle

/-- Witness for C1 at the cross-window full-refund fixture: the refund dated
day 10, outside the window [1, 7], is still counted. -/
theorem refund_leak_back_witness :
    1 ≤ (summaryOf sellerC "S-001" 1 7 storeC).refund_count := by
  obtain ⟨li, hmem, hid, hrefs, hfull⟩ :=
    refund_leak_back storeC "S-001" 1 7 (summaryOf sellerC "S-001" 1 7 storeC)
      txnC (calculate_payout_eq_ok 1 7 rfl)
      (by simp [DataStore.get_transactions_for_seller, storeC, txnC, refC, inWindow])
  exact (hfull refC
    (by simp [linkedRefunds, DataStore.get_transactions_for_seller, storeC,
      txnC, refC, isRefundOrChargeback]) rfl).2.2.2

/-- C4: the breakdown of a returned summary holds exactly one line item per
transaction passing the window filter (status CAPTURED, non-null capture
timestamp, capture date inside the inclusive window — `inWindow`), and the
line items are ordered by capture timestamp ascending. -/
theorem breakdown_matches_window (store : DataStore) (sid : String)
    (sd ed : Int) (ps : PayoutSummary)
    (hok : calculate_payout sid sd ed store = .ok ps) :
    (ps.breakdown.map TransactionLineItem.transaction_id).Perm
      (((store.get_transactions_for_seller sid).filter (inWindow sd ed)).map
        Transaction.id) ∧
    ps.breakdown.Pairwise
      (fun a b => DateTime.le a.captured_at b.captured_at = true) := by
  obtain ⟨seller, hsell, hps⟩ := calculate_payout_ok_elim hok
  subst hps
  rw [summaryOf_breakdown]
  constructor
  · rw [List.map_map]
    have hco :
        (TransactionLineItem.transaction_id ∘
          mkLineItemT seller (store.get_transactions_for_seller sid)) =
          Transaction.id :=
      funext (fun t => rfl)
    rw [hco]
    exact (sortByCapturedAt_perm _).map Transaction.id
  · rw [List.pairwise_map]
    exact sortByCapturedAt_sorted _

/-- Witness for C4 at a concrete store. -/
theorem breakdown_matches_window_witness :
    ((summaryOf sellerC "S-001" 1 7 storeC).breakdown.map
      TransactionLineItem.transaction_id).Perm
      (((storeC.get_transactions_for_seller "S-001").filter (inWindow 1 7)).map
        Transaction.id) ∧
    (summaryOf sellerC "S-001" 1 7 storeC).breakdown.Pairwise
      (fun a b => DateTime.le a.captured_at b.captured_at = true) :=
  breakdown_matches_window storeC "S-001" 1 7 _ (calculate_payout_eq_ok 1 7 rfl)

/-- C10: every returned summary has `transaction_count` equal to the length
of its breakdown and `refund_count` equal to the total number of refund
records across the breakdown. -/
theorem summary_counts_consistent (sid : String) (sd ed : Int)
    (store : DataStore) (ps : PayoutSummary)
    (hok : calculate_payout sid sd ed store = .ok ps) :
    ps.transaction_count = ps.breakdown.length ∧
    ps.refund_count = (ps.breakdown.map (fun li => li.refunds.length)).sum := by
  obtain ⟨seller, hsell, hps⟩ := calculate_payout_ok_elim hok
  subst hps
  refine ⟨?_, summaryOf_refund_count seller sid sd ed store⟩
  rw [summaryOf_transaction_count, summaryOf_breakdown, List.length_map,
    sortByCapturedAt, List.length_mergeSort]

/-- Witness for C10 at a concrete store. -/
theorem summary_counts_consistent_witness :
    (summaryOf sellerC "S-001" 1 7 storeC).transaction_count =
      (summaryOf sellerC "S-001" 1 7 storeC).breakdown.length ∧
    (summaryOf sellerC "S-001" 1 7 storeC).refund_count =
      ((summaryOf sellerC "S-001" 1 7 storeC).breakdown.map
        (fun li => li.refunds.length)).sum :=
  summary_counts_consistent "S-001" 1 7 storeC _ (calculate_payout_eq_ok 1 7 rfl)

theorem rateOf_IDR_IDR : rateOf Currency.IDR Currency.IDR = 1 := rfl

theorem rateOf_THB_IDR : rateOf Currency.THB Currency.IDR = 440.99 := rfl

/-- C2 (amended): for a captured transaction in the window with no linked
refunds and a non-negative amount, the line net payout is
`quantize2 ((amount − quantize2 (amount * rate)) * fxRate)` — the amount
minus the separately rounded commission, then converted.  This differs from
the claimed `round(amount * (1 − rate), 2dp)` converted: see the
counterexample at amount 0.25, rate 0.10. -/
theorem net_payout_without_refunds (store : DataStore) (sid : String)
    (sd ed : Int) (seller : Seller) (ps : PayoutSummary) (txn : Transaction)
    (hs : store.get_seller sid = some seller)
    (hok : calculate_payout sid sd ed store = .ok ps)
    (hmem : txn ∈ (store.get_transactions_for_seller sid).filter (inWindow sd ed))
    (hnoref : linkedRefunds (store.get_transactions_for_seller sid) txn.id = [])
    (hamt : 0 ≤ txn.amount) :
    ∃ li ∈ ps.breakdown,
      li.transaction_id = txn.id ∧
      li.net_payout =
        quantize2 ((txn.amount - quantize2 (txn.amount * seller.commission_rate)) *
          rateOf txn.currency seller.settlement_currency) := by
  obtain ⟨seller2, hsell, hps⟩ := calculate_payout_ok_elim hok
  rw [hs] at hsell
  obtain rfl : seller = seller2 := Option.some.inj hsell
  subst hps
  have hmem2 :
      txn ∈ sortByCapturedAt
        ((store.get_transactions_for_seller sid).filter (inWindow sd ed)) :=
    (sortByCapturedAt_perm _).mem_iff.mpr hmem
  refine ⟨mkLineItemT seller (store.get_transactions_for_seller sid) txn,
    ?_, rfl, ?_⟩
  · rw [summaryOf_breakdown]
    exact List.mem_map_of_mem _ hmem2
  · rw [mkLineItemT_net_payout]
    have hnet :
        netAfterRefunds (store.get_transactions_for_seller sid) txn = txn.amount := by
      rw [netAfterRefunds, hnoref]
      rw [List.map_nil, List.sum_nil, sub_zero]
      exact max_eq_right hamt
    rw [hnet]

/-- Seller fixture for the C2 counterexample: 10 percent commission, IDR. -/
def sellerA : Seller :=
  { id := "S-A", name := "Quarter", commission_rate := 0.10,
    settlement_currency := .IDR, country := "Indonesia",
    email := "a@example.com" }

/-- A 0.25 IDR transaction captured on day 1, no refunds. -/
def txnA : Transaction :=
  { id := "T-A", seller_id := "S-A", buyer_id := "B-A",
    amount := 0.25, currency := .IDR, status := .captured,
    created_at := ⟨1, 0⟩, captured_at := some ⟨1, 0⟩,
    parent_transaction_id := none, description := none }

/-- Store for the C2 counterexample. -/
def storeA : DataStore := ⟨[sellerA], [txnA]⟩

/-- Counterexample to C2 as stated: for the no-refund transaction of amount
0.25 IDR at rate 0.10, the engine yields net payout 0.23 (amount minus
separately rounded commission: 0.25 − round2(0.025) = 0.25 − 0.02), while
the claimed formula round2(0.25 × 0.9) converted gives 0.22. -/
theorem net_formula_counterexample :
    calculate_payout "S-A" 1 1 storeA = .ok (summaryOf sellerA "S-A" 1 1 storeA) ∧
    (summaryOf sellerA "S-A" 1 1 storeA).breakdown.map
      TransactionLineItem.net_payout = [0.23] ∧
    quantize2 (quantize2 ((0.25 : ℚ) * (1 - 0.10)) *
      rateOf Currency.IDR Currency.IDR) = 0.22 := by
  refine ⟨calculate_payout_eq_ok 1 1 rfl, ?_, ?_⟩
  · norm_num [summaryOf, DataStore.get_transactions_for_seller, storeA, txnA,
      sellerA, inWindow, sortByCapturedAt, List.mergeSort, mkLineItemT, convertT,
      rateOf_IDR_IDR, linkedRefunds, isRefundOrChargeback, mkRefundDetail,
      capturedAtD, quantize2, roundHalfEven]
  · rw [rateOf_IDR_IDR]
    norm_num [quantize2, roundHalfEven]

/-- Witness for C2 (amended) at the 0.25 IDR fixture: the line net payout is
the amount minus the separately rounded commission, converted. -/
theorem net_payout_without_refunds_witness :
    ∃ li ∈ (summaryOf sellerA "S-A" 1 1 storeA).breakdown,
      li.transaction_id = "T-A" ∧
      li.net_payout =
        quantize2 (((0.25 : ℚ) - quantize2 ((0.25 : ℚ) * 0.10)) *
          rateOf Currency.IDR Currency.IDR) :=
  net_payout_without_refunds storeA "S-A" 1 1 sellerA _ txnA rfl
    (calculate_payout_eq_ok 1 1 rfl)
    (by simp [DataStore.get_transactions_for_seller, storeA, txnA, inWindow])
    (by simp [linkedRefunds, DataStore.get_transactions_for_seller, storeA,
      txnA, isRefundOrChargeback])
    (by norm_num [txnA])

/-- Bounds of the half-even rounding: it lands on the floor or the floor
plus one. -/
theorem roundHalfEven_le_floor_add_one (x : ℚ) : roundHalfEven x ≤ ⌊x⌋ + 1 := by
  unfold roundHalfEven
  dsimp only
  split_ifs <;> omega

theorem floor_le_roundHalfEven (x : ℚ) : ⌊x⌋ ≤ roundHalfEven x := by
  unfold roundHalfEven
  dsimp only
  split_ifs <;> omega

/-- Half-even rounding is monotone. -/
theorem roundHalfEven_mono {x y : ℚ} (h : x ≤ y) :
    roundHalfEven x ≤ roundHalfEven y := by
  rcases eq_or_lt_of_le (Int.floor_le_floor h) with heq | hlt
  · unfold roundHalfEven
    dsimp only
    rw [← heq]
    split_ifs <;> first | omega | (exfalso; linarith)
  · have h1 := roundHalfEven_le_floor_add_one x
    have h2 := floor_le_roundHalfEven y
    omega

/-- Two-decimal rounding is monotone. -/
theorem quantize2_mono {x y : ℚ} (h : x ≤ y) : quantize2 x ≤ quantize2 y := by
  have hr := roundHalfEven_mono (mul_le_mul_of_nonneg_right h (by norm_num : (0:ℚ) ≤ 100))
  have hc : ((roundHalfEven (x * 100) : ℤ) : ℚ) ≤ ((roundHalfEven (y * 100) : ℤ) : ℚ) :=
    Int.cast_le.mpr hr
  unfold quantize2
  linarith

/-- The fixed-point invariant the spec imposes on monetary amounts: a value
with at most two decimal places. -/
def Is2dp (x : ℚ) : Prop := ∃ n : ℤ, x = (n : ℚ) / 100

theorem Is2dp.sub {x y : ℚ} (hx : Is2dp x) (hy : Is2dp y) : Is2dp (x - y) := by
  obtain ⟨n, rfl⟩ := hx
  obtain ⟨m, rfl⟩ := hy
  exact ⟨n - m, by push_cast; ring⟩

theorem Is2dp.max_zero {x : ℚ} (hx : Is2dp x) : Is2dp (max 0 x) := by
  rcases le_total x 0 with h | h
  · rw [max_eq_left h]
    exact ⟨0, by norm_num⟩
  · rw [max_eq_right h]
    exact hx

theorem Is2dp.sum : ∀ {l : List ℚ}, (∀ x ∈ l, Is2dp x) → Is2dp l.sum
  | [], _ => ⟨0, by norm_num⟩
  | x :: xs, h => by
    obtain ⟨n, hn⟩ := h x (List.mem_cons_self x xs)
    obtain ⟨m, hm⟩ := Is2dp.sum (fun y hy => h y (List.mem_cons_of_mem x hy))
    exact ⟨n + m, by rw [List.sum_cons, hn, hm]; push_cast; ring⟩

/-- `quantize2` fixes every two-decimal value. -/
theorem quantize2_eq_self {x : ℚ} (hx : Is2dp x) : quantize2 x = x := by
  obtain ⟨n, rfl⟩ := hx
  have h1 : ((n : ℚ) / 100) * 100 = (n : ℚ) := div_mul_cancel₀ _ (by norm_num)
  have h2 : roundHalfEven ((n : ℚ)) = n := by
    unfold roundHalfEven
    dsimp only
    rw [Int.floor_intCast]
    norm_num
  rw [quantize2, h1, h2]

/-- The rounded commission on a clamped two-decimal net never exceeds the
net when the commission rate is a fraction in [0, 1]: rounding is monotone
and fixes the two-decimal net. -/
theorem commission_le_netAfter {net rate : ℚ} (hnet2 : Is2dp net)
    (hnet0 : 0 ≤ net) (hr1 : rate ≤ 1) :
    quantize2 (net * rate) ≤ net := by
  have h1 : net * rate ≤ net := mul_le_of_le_one_right hnet0 hr1
  calc quantize2 (net * rate) ≤ quantize2 net := quantize2_mono h1
    _ = net := quantize2_eq_self hnet2

/-- C5: refunds never drive `gross_after_refunds` or `net_payout` negative,
even when the refunded total exceeds the original amount:
`gross_after_refunds` is clamped to
`max 0 (convertedGross − convertedRefunds)`, the original-currency net is
clamped to `max 0 (amount − totalRefunded)`, and under the data-model
invariants the spec imposes — every transaction amount a two-decimal
fixed-point value, the commission rate a fraction in [0, 1] — the rounded
commission on the clamped net never exceeds it, so every line `net_payout`
and the summary `net_payout` are non-negative. -/
theorem outputs_nonneg (store : DataStore) (sid : String) (sd ed : Int)
    (seller : Seller) (ps : PayoutSummary)
    (hs : store.get_seller sid = some seller)
    (hok : calculate_payout sid sd ed store = .ok ps)
    (hr1 : seller.commission_rate ≤ 1)
    (hamts : ∀ t ∈ store.get_transactions_for_seller sid, Is2dp t.amount) :
    (∀ li ∈ ps.breakdown,
      li.gross_after_refunds =
        max 0 (li.converted_gross - li.total_refunded_converted) ∧
      0 ≤ li.gross_after_refunds ∧ 0 ≤ li.net_payout) ∧
    0 ≤ ps.net_payout := by
  obtain ⟨seller2, hsell, hps⟩ := calculate_payout_ok_elim hok
  rw [hs] at hsell
  obtain rfl : seller = seller2 := Option.some.inj hsell
  subst hps
  have hli : ∀ li ∈ (summaryOf seller sid sd ed store).breakdown,
      li.gross_after_refunds =
        max 0 (li.converted_gross - li.total_refunded_converted) ∧
      0 ≤ li.gross_after_refunds ∧ 0 ≤ li.net_payout := by
    intro li hmemli
    rw [summaryOf_breakdown] at hmemli
    obtain ⟨t, ht, rfl⟩ := List.mem_map.mp hmemli
    have htf : t ∈ (store.get_transactions_for_seller sid).filter (inWindow sd ed) :=
      (sortByCapturedAt_perm _).mem_iff.mp ht
    have htall : t ∈ store.get_transactions_for_seller sid :=
      (List.mem_filter.mp htf).1
    have hnet2 : Is2dp (netAfterRefunds (store.get_transactions_for_seller sid) t) := by
      apply Is2dp.max_zero
      apply Is2dp.sub (hamts t htall)
      apply Is2dp.sum
      intro x hx
      obtain ⟨r, hr, rfl⟩ := List.mem_map.mp hx
      exact hamts r (List.mem_filter.mp (by exact hr)).1
    have hnet0 : 0 ≤ netAfterRefunds (store.get_transactions_for_seller sid) t :=
      le_max_left 0 _
    refine ⟨mkLineItemT_gross_after_refunds seller _ t, ?_, ?_⟩
    · rw [mkLineItemT_gross_after_refunds]
      exact le_max_left 0 _
    · rw [mkLineItemT_net_payout]
      apply quantize2_nonneg
      apply mul_nonneg
      · exact sub_nonneg.mpr (commission_le_netAfter hnet2 hnet0 hr1)
      · exact le_of_lt (rateOf_pos _ _)
  refine ⟨hli, ?_⟩
  rw [summaryOf_net_payout]
  apply quantize2_nonneg
  apply List.sum_nonneg
  intro x hx
  obtain ⟨li, hmemli, rfl⟩ := List.mem_map.mp hx
  exact (hli li hmemli).2.2

/-- Witness for C5 at the cross-window over-refundable fixture: the summary
net payout is non-negative. -/
theorem outputs_nonneg_witness :
    0 ≤ (summaryOf sellerC "S-001" 1 7 storeC).net_payout :=
  (outputs_nonneg storeC "S-001" 1 7 sellerC _ rfl (calculate_payout_eq_ok 1 7 rfl)
    (by norm_num [sellerC])
    (by
      intro t ht
      have h2 : t = txnC ∨ t = refC := by
        simpa [DataStore.get_transactions_for_seller, storeC, txnC, refC] using ht
      rcases h2 with rfl | rfl
      · exact ⟨100000000, by norm_num [txnC]⟩
      · exact ⟨100000000, by norm_num [refC]⟩)).2

/-- C6 (amended): the detector emits no flags on an empty captured list;
otherwise it emits one flag per captured transaction whose amount exceeds
3x the mean — in the order of the captured list as passed to it, which at
the call site in `calculate_payout` is the PRE-SORT filter order, not the
sorted order (see the counterexample) — each flagged high exactly when the
amount exceeds 5x the mean, followed by the single seller-level flag when
the refunded fraction exceeds 0.30. -/
theorem detectFraud_content (captured all_txns : List Transaction) :
    (captured = [] → detectFraud captured all_txns = []) ∧
    (detectFraud captured all_txns).map FraudFlag.transaction_id =
      ((captured.filter
        (fun t => decide (avgAmount captured * 3 < t.amount))).map
        Transaction.id) ++
      (if 0 < captured.length ∧
          (3 : ℚ) / 10 <
            (refundedCount captured all_txns : ℚ) / (captured.length : ℚ)
        then ["SELLER"] else []) ∧
    (∀ t ∈ captured, avgAmount captured * 3 < t.amount →
      ∃ f ∈ detectFraud captured all_txns, f.transaction_id = t.id ∧
        (f.severity = Severity.high ↔ avgAmount captured * 5 < t.amount)) := by
  refine ⟨?_, ?_, ?_⟩
  · intro h
    subst h
    rfl
  · by_cases hlen : captured.length = 0
    · rw [List.length_eq_zero.mp hlen]
      simp [detectFraud]
    · unfold detectFraud
      rw [if_neg hlen]
      dsimp only
      rw [foldl_append_ite (fun txn => avgAmount captured * 3 < txn.amount)
        (fun txn =>
          ({ transaction_id := txn.id
             reason := "amount above 3x the period average"
             severity :=
               if avgAmount captured * 5 < txn.amount then Severity.high
               else Severity.medium } : FraudFlag)) captured []]
      rw [List.nil_append]
      split
      · rw [List.map_append, List.map_map]
        rfl
      · rw [List.append_nil, List.map_map]
        rfl
  · intro t ht hgt
    have hlen : ¬captured.length = 0 := by
      intro h0
      rw [List.length_eq_zero.mp h0] at ht
      exact absurd ht (List.not_mem_nil t)
    refine ⟨{ transaction_id := t.id
              reason := "amount above 3x the period average"
              severity :=
                if avgAmount captured * 5 < t.amount then Severity.high
                else Severity.medium }, ?_, rfl, ?_⟩
    · unfold detectFraud
      rw [if_neg hlen]
      dsimp only
      rw [foldl_append_ite (fun txn => avgAmount captured * 3 < txn.amount)
        (fun txn =>
          ({ transaction_id := txn.id
             reason := "amount above 3x the period average"
             severity :=
               if avgAmount captured * 5 < txn.amount then Severity.high
               else Severity.medium } : FraudFlag)) captured []]
      rw [List.nil_append]
      have htf :
          t ∈ captured.filter
            (fun x => decide (avgAmount captured * 3 < x.amount)) :=
        List.mem_filter.mpr ⟨ht, decide_eq_true hgt⟩
      have hmemf := List.mem_map_of_mem
        (fun txn =>
          ({ transaction_id := txn.id
             reason := "amount above 3x the period average"
             severity :=
               if avgAmount captured * 5 < txn.amount then Severity.high
               else Severity.medium } : FraudFlag))
        htf
      split
      · exact List.mem_append_left _ hmemf
      · exact hmemf
    · by_cases h5 : avgAmount captured * 5 < t.amount
      · simp [h5]
      · simp [h5]

/-- Witness for C6 (amended): no flags on the empty list; no flags at the
single-transaction fixture (its amount equals the mean). -/
theorem detectFraud_content_witness :
    detectFraud [] [] = [] ∧
    (detectFraud [txnC] [txnC]).map FraudFlag.transaction_id = [] := by
  refine ⟨(detectFraud_content [] []).1 rfl, ?_⟩
  rw [(detectFraud_content [txnC] [txnC]).2.1]
  norm_num [avgAmount, refundedCount, linkedRefunds, isRefundOrChargeback, txnC]

/-- Large transaction captured on day 5, listed FIRST in store order. -/
def txnB2 : Transaction :=
  { id := "T-B2", seller_id := "S-C6", buyer_id := "B-1",
    amount := 100, currency := .IDR, status := .captured,
    created_at := ⟨5, 0⟩, captured_at := some ⟨5, 0⟩,
    parent_transaction_id := none, description := none }

/-- Large transaction captured on day 1, listed SECOND in store order. -/
def txnB1 : Transaction :=
  { id := "T-B1", seller_id := "S-C6", buyer_id := "B-1",
    amount := 100, currency := .IDR, status := .captured,
    created_at := ⟨1, 0⟩, captured_at := some ⟨1, 0⟩,
    parent_transaction_id := none, description := none }

/-- Zero-amount filler transaction used to drag the mean down. -/
def txnZ (n : Int) (tid : String) : Transaction :=
  { id := tid, seller_id := "S-C6", buyer_id := "B-1",
    amount := 0, currency := .IDR, status := .captured,
    created_at := ⟨n, 0⟩, captured_at := some ⟨n, 0⟩,
    parent_transaction_id := none, description := none }

/-- A captured list in store (filter) order that is NOT sorted by capture
time: the day-5 transaction precedes the day-1 one. -/
def capturedC6 : List Transaction :=
  [txnB2, txnB1, txnZ 2 "T-01", txnZ 3 "T-02", txnZ 4 "T-03",
   txnZ 6 "T-04", txnZ 7 "T-05"]

/-- Counterexample to C6 as stated: `calculate_payout` hands `_detect_fraud`
the captured list BEFORE sorting, so on this list the two above-3x-mean
flags come out as T-B2 (captured day 5) before T-B1 (captured day 1), while
the sorted captured list orders T-B1 before T-B2. -/
theorem fraud_flag_order_counterexample :
    (detectFraud capturedC6 capturedC6).map FraudFlag.transaction_id =
      ["T-B2", "T-B1"] ∧
    (sortByCapturedAt capturedC6).map Transaction.id =
      ["T-B1", "T-01", "T-02", "T-03", "T-B2", "T-04", "T-05"] := by
  constructor
  · norm_num [detectFraud, avgAmount, refundedCount, linkedRefunds,
      isRefundOrChargeback, capturedC6, txnB1, txnB2, txnZ]
  · norm_num [sortByCapturedAt, List.mergeSort, List.merge, DateTime.le,
      capturedAtD, capturedC6, txnB1, txnB2, txnZ]

/-- C3 evaluated at the failing input: the engine model returns a summary
and the detector produces a seller-level flag, but the `PayoutSummary`
record embedded verbatim from src/app/models.py (lines 73-86) carries no
`fraud_flags` field to hold it — and src/app/models.py defines no
`FraudFlag` class although src/app/engine.py imports one from it. -/
theorem fraud_flags_dropped_eval :
    calculate_payout "S-001" 1 31 storeC =
      .ok (summaryOf sellerC "S-001" 1 31 storeC) ∧
    detectFraud
        ((storeC.get_transactions_for_seller "S-001").filter (inWindow 1 31))
        (storeC.get_transactions_for_seller "S-001") =
      [{ transaction_id := "SELLER", reason := "high refund rate",
         severity := Severity.medium }] := by
  refine ⟨calculate_payout_eq_ok 1 31 rfl, ?_⟩
  norm_num [detectFraud, avgAmount, refundedCount, linkedRefunds,
    isRefundOrChargeback, DataStore.get_transactions_for_seller, storeC,
    txnC, refC, inWindow]

end KusumaSettlement
